import Mathlib

set_option maxRecDepth 100000

/-!
# Triac power regulator — verification development

Shallow embedding of src/SW/src/functions.c and src/SW/src/main.c of a
phase-cut dimmer for an 8-bit AVR target.  On this target an `unsigned`
is 16 bits wide, an `unsigned long` is 32 bits wide and a `char` is
8 bits wide; machine arithmetic is modelled on `Nat`, with an explicit
`% 2^w` at every place where the C computation can wrap.
-/

/-- Width modulus of the C type `unsigned` (16-bit on the AVR target). -/
def UINT_MOD : Nat := 2 ^ 16

/-- Width modulus of the C type `unsigned long` (32-bit on the AVR target). -/
def ULONG_MOD : Nat := 2 ^ 32

/-- Constant `UPPER_THRESHOLD_VALUE` from src/SW/inc/functions.h (4.6 V). -/
def UPPER_THRESHOLD_VALUE : Nat := 941

/-- Constant `LOWER_THRESHOLD_VALUE` from src/SW/inc/functions.h. -/
def LOWER_THRESHOLD_VALUE : Nat := 220

/-- Constant `MAX_ADC_VALUE` from src/SW/inc/functions.h (10-bit ADC at 5 V). -/
def MAX_ADC_VALUE : Nat := 1023

/-- Constant `MIN_ADC_VALUE` from src/SW/inc/functions.h (1 V). -/
def MIN_ADC_VALUE : Nat := 205

/-- Constant `ADC_RANGE_VALUE = MAX_ADC_VALUE - MIN_ADC_VALUE` from functions.h. -/
def ADC_RANGE_VALUE : Nat := MAX_ADC_VALUE - MIN_ADC_VALUE

/-- Constant `ZERO_CROSS_DELAY_US` from src/SW/inc/functions.h (1000 µs). -/
def ZERO_CROSS_DELAY_US : Nat := 1000

/-- Constant `ZERO_CROSS_DELAY_OCR0A_PRESC_64` from functions.h (OCR0A value
for 1000 µs at prescaler 64). -/
def ZERO_CROSS_DELAY_OCR0A_PRESC_64 : Nat := 74

/-- Constant `TRIGGER_PULSE_DURATION_PRESC_8` from functions.h (OCR0A value
for the 250 µs trigger pulse at prescaler 8). -/
def TRIGGER_PULSE_DURATION_PRESC_8 : Nat := 149

/-- Constant `HALF_PERIOD_DURATION_US` from functions.h (10000 µs). -/
def HALF_PERIOD_DURATION_US : Nat := 10000

/-- Function `CalculateADCValue` from src/SW/src/functions.c, mapping a raw
ADC value to a percentage.  The argument is the value of the 16-bit
`unsigned` parameter (in the program it is always a 10-bit ADC result,
0..1023).  In the final branch the C code computes
`((unsigned long)ADCValue - (unsigned long)MIN_ADC_VALUE) * 100 /
(unsigned long)ADC_RANGE_VALUE`; on that branch `ADCValue ≥ 220 > 205`,
so the 32-bit subtraction cannot wrap, and the product is at most
`(2^16 - 1 - 205) * 100 < 2^32`, so plain `Nat` arithmetic is exact. -/
def CalculateADCValue (ADCValue : Nat) : Nat :=
  if ADCValue > UPPER_THRESHOLD_VALUE then 100
  else if ADCValue < LOWER_THRESHOLD_VALUE then 0
  else (ADCValue - MIN_ADC_VALUE) * 100 / ADC_RANGE_VALUE

/-- The 32-bit intermediate `volatile unsigned long a` of
`CalculateRegisterValue` in src/SW/src/functions.c:
`(48 * (unsigned long)time / 10 / (unsigned long)prescaler) - 1` in
`unsigned long` arithmetic.  `time` is 16-bit so `48 * time < 2^22` and
the product and divisions are exact on `Nat`; the trailing `- 1` wraps
modulo `2^32` when the quotient is 0, which the `+ (ULONG_MOD - 1)`
encoding captures. -/
def calcRegValA (prescaler time : Nat) : Nat :=
  (48 * time / 10 / prescaler + (ULONG_MOD - 1)) % ULONG_MOD

/-- Function `CalculateRegisterValue` from src/SW/src/functions.c.  The C
function returns `(char)a`; the result is modelled as the 8-bit pattern
of that `char`, i.e. the low 8 bits of the 32-bit intermediate. -/
def CalculateRegisterValue (prescaler time : Nat) : Nat :=
  calcRegValA prescaler time % 256

/-- Enumeration `controller_states` from src/SW/inc/functions.h. -/
inductive controller_states : Type where
  | WAITING_FOR_TRIGGER : controller_states
  | SWITCHING : controller_states
  deriving DecidableEq, Repr

/-- The machine state touched by the embedded code: the global `state`
variable, port bit PB0 (the optotriac drive), the clock-select bits
CS02..CS00 of TCCR0B, the OCIE0A bit of TIMSK0, the OCR0A and TCNT0
timer registers (8-bit) and the global `ADCResult` variable (declared
`int`, 16-bit, always holding a 10-bit ADC result). -/
structure MCU : Type where
  state : controller_states
  portb0 : Bool
  cs : Nat
  ocie0a : Bool
  ocr0a : Nat
  tcnt0 : Nat
  adcResult : Nat
  deriving DecidableEq, Repr

/-- Net value of the TCCR0B clock-select bits after `TIMER_STOP` (which
clears CS00..CS02) followed by the `switch(prescaler)` of `SetTimer`
(CS00 = 1, CS01 = 2, CS02 = 4): prescaler 8 sets CS01, prescaler 64 sets
CS00 and CS01, prescaler 256 sets CS02; any other prescaler leaves the
clock stopped. -/
def csBits (prescaler : Nat) : Nat :=
  if prescaler = 8 then 2
  else if prescaler = 64 then 3
  else if prescaler = 256 then 4
  else 0

/-- Function `SetTimer` from src/SW/src/functions.c: it disables the
compare interrupt, stops the clock, re-selects the prescaler, clears the
pending compare flag, writes `OCR0A = TCNT0 + OCValue` (an 8-bit
register, so modulo 256) and finally re-enables the compare interrupt.
`OCValue` is the 8-bit pattern of the `char` argument. -/
def SetTimer (prescaler OCValue : Nat) (s : MCU) : MCU :=
  { s with
    cs := csBits prescaler
    ocr0a := (s.tcnt0 + OCValue % 256) % 256
    ocie0a := true }

/-- The `volatile unsigned timeDelay` computed by `SetWaitingPulse`:
`HALF_PERIOD_DURATION_US - (((HALF_PERIOD_DURATION_US / 100) * percent)
+ ZERO_CROSS_DELAY_US)` in 16-bit `unsigned` arithmetic (the subtraction
wraps modulo `2^16` when `100 * percent + 1000 > 10000`, i.e. for
`percent ≥ 91`). -/
def timeDelay (percent : Nat) : Nat :=
  (HALF_PERIOD_DURATION_US + UINT_MOD
      - ((HALF_PERIOD_DURATION_US / 100 * percent) % UINT_MOD
          + ZERO_CROSS_DELAY_US) % UINT_MOD) % UINT_MOD

/-- Function `SetWaitingPulse` from src/SW/src/functions.c: percentage 100
programs the fixed zero-cross compensation delay, percentage 0 disables
the timer (interrupt off, clock stopped), and otherwise the computed
`timeDelay` selects the prescaler by the 425 µs / 3400 µs thresholds. -/
def SetWaitingPulse (percent : Nat) (s : MCU) : MCU :=
  if percent = 100 then
    SetTimer 64 ZERO_CROSS_DELAY_OCR0A_PRESC_64 s
  else if percent = 0 then
    { s with ocie0a := false, cs := 0 }
  else if timeDelay percent < 425 then
    SetTimer 8 (CalculateRegisterValue 8 (timeDelay percent)) s
  else if timeDelay percent < 3400 then
    SetTimer 64 (CalculateRegisterValue 64 (timeDelay percent)) s
  else
    SetTimer 256 (CalculateRegisterValue 256 (timeDelay percent)) s

/-- The prescaler that the threshold chain of `SetWaitingPulse` passes to
`SetTimer` for a non-special percentage. -/
def selectedPrescaler (percent : Nat) : Nat :=
  if timeDelay percent < 425 then 8
  else if timeDelay percent < 3400 then 64
  else 256

/-- `ISR(INT0_vect)` from src/SW/src/main.c, the zero-cross handler:
`OPTOTRIAC_OFF`, then `SetWaitingPulse(CalculateADCValue(ADCResult))`,
then `state = WAITING_FOR_TRIGGER` (the final `ADCStart()` only touches
ADCSRA, which is outside the modelled state). -/
def ISR_INT0 (s : MCU) : MCU :=
  let s1 : MCU := { s with portb0 := false }
  let s2 : MCU := SetWaitingPulse (CalculateADCValue s1.adcResult) s1
  { s2 with state := controller_states.WAITING_FOR_TRIGGER }

/-- `ISR(ADC_vect)` from src/SW/src/main.c, the conversion-complete
handler: it first reads the 8-bit ADCL register into
`ADCTempResult`, then assembles `ADCResult = (ADCH << 8) +
ADCTempResult`; `ADCL` and `ADCH` are the 8-bit hardware registers
holding the two halves of the 10-bit conversion result. -/
def ISR_ADC (ADCL ADCH : Nat) (s : MCU) : MCU :=
  let ADCTempResult : Nat := ADCL % 256
  { s with adcResult := ((ADCH % 256) * 2 ^ 8 + ADCTempResult) % UINT_MOD }

/-- `ISR(TIM0_COMPA_vect)` from src/SW/src/main.c, the timer-expiry
handler: in `WAITING_FOR_TRIGGER` it asserts the output, moves to
`SWITCHING` and re-arms the timer with `SetTimer(8, 149)`; in
`SWITCHING` it de-asserts the output. -/
def ISR_TIM0_COMPA (s : MCU) : MCU :=
  if s.state = controller_states.WAITING_FOR_TRIGGER then
    SetTimer 8 149 { s with portb0 := true, state := controller_states.SWITCHING }
  else if s.state = controller_states.SWITCHING then
    { s with portb0 := false }
  else s

/-- A concrete reset-like machine state, used by witnesses. -/
def mcu0 : MCU :=
  { state := controller_states.WAITING_FOR_TRIGGER
    portb0 := false
    cs := 0
    ocie0a := false
    ocr0a := 0
    tcnt0 := 0
    adcResult := 0 }

/-- The same machine state in the `SWITCHING` controller state. -/
def mcu1 : MCU := { mcu0 with state := controller_states.SWITCHING }

/-! ## Helper lemmas shared by the claim theorems -/

/-- The zero-cross handler's call to `SetWaitingPulse` never touches the
optotriac output bit. -/
theorem setWaitingPulse_portb0 (p : Nat) (s : MCU) :
    (SetWaitingPulse p s).portb0 = s.portb0 := by
  unfold SetWaitingPulse SetTimer
  split
  · rfl
  · split
    · rfl
    · split
      · rfl
      · split
        · rfl
        · rfl

/-- For a non-special percentage, `SetWaitingPulse` is exactly `SetTimer`
applied to the threshold-selected prescaler and the corresponding
computed compare value. -/
theorem setWaitingPulse_eq (p : Nat) (s : MCU) (h0 : p ≠ 0) (h100 : p ≠ 100) :
    SetWaitingPulse p s =
      SetTimer (selectedPrescaler p)
        (CalculateRegisterValue (selectedPrescaler p) (timeDelay p)) s := by
  unfold SetWaitingPulse selectedPrescaler
  rw [if_neg h100, if_neg h0]
  by_cases h1 : timeDelay p < 425
  · rw [if_pos h1, if_pos h1]
  · rw [if_neg h1, if_neg h1]
    by_cases h2 : timeDelay p < 3400
    · rw [if_pos h2, if_pos h2]
    · rw [if_neg h2, if_neg h2]

/-- Branch lemma: inputs above the upper threshold are clamped to 100. -/
theorem calcADC_high {x : Nat} (h : 941 < x) : CalculateADCValue x = 100 := by
  unfold CalculateADCValue UPPER_THRESHOLD_VALUE
  rw [if_pos h]

/-- Branch lemma: inputs below the lower threshold are clamped to 0. -/
theorem calcADC_low {x : Nat} (h : x < 220) : CalculateADCValue x = 0 := by
  unfold CalculateADCValue UPPER_THRESHOLD_VALUE LOWER_THRESHOLD_VALUE
  rw [if_neg (by omega), if_pos h]

/-- Branch lemma: inputs between the thresholds take the linear branch. -/
theorem calcADC_mid {x : Nat} (h1 : 220 ≤ x) (h2 : x ≤ 941) :
    CalculateADCValue x = (x - 205) * 100 / 818 := by
  unfold CalculateADCValue UPPER_THRESHOLD_VALUE LOWER_THRESHOLD_VALUE
    ADC_RANGE_VALUE MAX_ADC_VALUE MIN_ADC_VALUE
  rw [if_neg (by omega), if_neg (by omega)]

/-- The percentage returned by `CalculateADCValue` never exceeds 100. -/
theorem calcADC_le_100 (x : Nat) : CalculateADCValue x ≤ 100 := by
  rcases Nat.lt_or_ge x 220 with h | h
  · rw [calcADC_low h]
    exact Nat.zero_le _
  · rcases le_or_lt x 941 with h2 | h2
    · rw [calcADC_mid h h2]
      have hmul : (x - 205) * 100 ≤ 73600 := by omega
      calc (x - 205) * 100 / 818 ≤ 73600 / 818 := Nat.div_le_div_right hmul
        _ ≤ 100 := by norm_num
    · rw [calcADC_high h2]

/-- Case analysis on the 16-bit delay computed by `SetWaitingPulse`, for
all percentages the threshold chain can receive: up to percentage 90 the
subtraction does not wrap; from 91 on it wraps modulo `2^16` and the
wrapped value always selects prescaler 256. -/
theorem timeDelay_cases : ∀ p : Nat, p ≤ 99 → 1 ≤ p →
    (p ≤ 90 → timeDelay p = 10000 - (10000 / 100 * p + 1000)) ∧
    (91 ≤ p → timeDelay p + (10000 / 100 * p + 1000) = 2 ^ 16 + 10000 ∧
      selectedPrescaler p = 256) := by decide

/-- The threshold chain of `SetWaitingPulse` realises the documented
divisor selection on the computed delay. -/
theorem selectedPrescaler_thresholds : ∀ p : Nat, p ≤ 99 → 1 ≤ p →
    (timeDelay p < 425 → selectedPrescaler p = 8) ∧
    (425 ≤ timeDelay p → timeDelay p < 3400 → selectedPrescaler p = 64) ∧
    (3400 ≤ timeDelay p → selectedPrescaler p = 256) := by decide

/-! ## Claim theorems -/

/-- C1 counterexample: the claim fails at percentage 90.  There the
computed delay is 0 µs, prescaler 8 is selected, and the 32-bit
intermediate of `CalculateRegisterValue` underflows to `2^32 - 1`, far
outside 0..255, so the `char` cast truncates it (to 255). -/
theorem C1_counterexample :
    timeDelay 90 = 0 ∧
    selectedPrescaler 90 = 8 ∧
    calcRegValA (selectedPrescaler 90) (timeDelay 90) = 2 ^ 32 - 1 ∧
    ¬ calcRegValA (selectedPrescaler 90) (timeDelay 90) ≤ 255 ∧
    CalculateRegisterValue (selectedPrescaler 90) (timeDelay 90) ≠
      calcRegValA (selectedPrescaler 90) (timeDelay 90) := by decide

/-- C1 (amended): for every percentage p with 1 ≤ p ≤ 89, the delay
computed by `SetWaitingPulse` and the prescaler selected by its duration
thresholds give a `CalculateRegisterValue` whose 32-bit intermediate
already lies within the 8-bit counter range 0..255, so the `char` cast
truncates nothing. -/
theorem C1_compare_value_in_range : ∀ p : Nat, p ≤ 89 → 1 ≤ p →
    calcRegValA (selectedPrescaler p) (timeDelay p) ≤ 255 ∧
    CalculateRegisterValue (selectedPrescaler p) (timeDelay p) =
      calcRegValA (selectedPrescaler p) (timeDelay p) := by decide

/-- C1 witness: the amended theorem applied at percentage 50. -/
theorem C1_compare_value_in_range_witness :
    calcRegValA (selectedPrescaler 50) (timeDelay 50) ≤ 255 ∧
    CalculateRegisterValue (selectedPrescaler 50) (timeDelay 50) =
      calcRegValA (selectedPrescaler 50) (timeDelay 50) :=
  C1_compare_value_in_range 50 (by decide) (by decide)

/-- C2 counterexample: the clamping comparisons are strict, so the claim
fails at both stated thresholds: raw 220 maps to 1, not 0, and raw 941
maps to 89, not 100. -/
theorem C2_counterexample :
    CalculateADCValue 220 = 1 ∧ CalculateADCValue 220 ≠ 0 ∧
    CalculateADCValue 941 = 89 ∧ CalculateADCValue 941 ≠ 100 := by decide

/-- C2 (amended): for every raw ADC input strictly below the lower
threshold 220, `CalculateADCValue` returns 0, and for every raw input
strictly above the upper threshold 941 it returns 100. -/
theorem C2_threshold_clamps : ∀ raw : Nat,
    (raw < LOWER_THRESHOLD_VALUE → CalculateADCValue raw = 0) ∧
    (UPPER_THRESHOLD_VALUE < raw → CalculateADCValue raw = 100) := by
  intro raw
  constructor
  · intro h
    exact calcADC_low (by simpa [LOWER_THRESHOLD_VALUE] using h)
  · intro h
    exact calcADC_high (by simpa [UPPER_THRESHOLD_VALUE] using h)

/-- C2 witness: the amended theorem applied at raw inputs 0 and 1000. -/
theorem C2_threshold_clamps_witness :
    CalculateADCValue 0 = 0 ∧ CalculateADCValue 1000 = 100 :=
  ⟨(C2_threshold_clamps 0).1 (by decide), (C2_threshold_clamps 1000).2 (by decide)⟩

/-- C3: a timer expiry in `WAITING_FOR_TRIGGER` asserts the output,
moves to `SWITCHING` and re-arms the timer with prescaler 8 and compare
offset 149; an expiry in `SWITCHING` de-asserts the output and stays in
`SWITCHING`; a zero-cross event de-asserts the output and resets the
state to `WAITING_FOR_TRIGGER` from any state. -/
theorem C3_state_machine : ∀ s : MCU,
    (s.state = controller_states.WAITING_FOR_TRIGGER →
      (ISR_TIM0_COMPA s).portb0 = true ∧
      (ISR_TIM0_COMPA s).state = controller_states.SWITCHING ∧
      (ISR_TIM0_COMPA s).cs = csBits 8 ∧
      (ISR_TIM0_COMPA s).ocr0a = (s.tcnt0 + 149) % 256 ∧
      (ISR_TIM0_COMPA s).ocie0a = true) ∧
    (s.state = controller_states.SWITCHING →
      (ISR_TIM0_COMPA s).portb0 = false ∧
      (ISR_TIM0_COMPA s).state = controller_states.SWITCHING) ∧
    ((ISR_INT0 s).portb0 = false ∧
      (ISR_INT0 s).state = controller_states.WAITING_FOR_TRIGGER) := by
  intro s
  refine ⟨fun h => ?_, fun h => ?_, ?_, ?_⟩
  · simp [ISR_TIM0_COMPA, h, SetTimer, csBits]
  · simp [ISR_TIM0_COMPA, h]
  · show (ISR_INT0 s).portb0 = false
    unfold ISR_INT0
    rw [show (∀ t : MCU, ({ t with state := controller_states.WAITING_FOR_TRIGGER } : MCU).portb0 = t.portb0) from fun t => rfl]
    rw [setWaitingPulse_portb0]
  · rfl

/-- C3 witness: the theorem applied at concrete machine states in each
of the two controller states. -/
theorem C3_state_machine_witness :
    ((ISR_TIM0_COMPA mcu0).portb0 = true ∧
      (ISR_TIM0_COMPA mcu0).state = controller_states.SWITCHING ∧
      (ISR_TIM0_COMPA mcu0).cs = csBits 8 ∧
      (ISR_TIM0_COMPA mcu0).ocr0a = (mcu0.tcnt0 + 149) % 256 ∧
      (ISR_TIM0_COMPA mcu0).ocie0a = true) ∧
    ((ISR_TIM0_COMPA mcu1).portb0 = false ∧
      (ISR_TIM0_COMPA mcu1).state = controller_states.SWITCHING) :=
  ⟨(C3_state_machine mcu0).1 (by decide), (C3_state_machine mcu1).2.1 (by decide)⟩

/-- C4 counterexample: the claim fails twice.  At percentage 50 the
computed delay is 4000 µs, not the claimed 3900 µs (10000 − (100·50 +
1000) = 4000).  At percentage 91 the claimed integer formula gives
−100 µs while the 16-bit unsigned subtraction in the code wraps to
65436 µs. -/
theorem C4_counterexample :
    timeDelay 50 = 4000 ∧ timeDelay 50 ≠ 3900 ∧
    (timeDelay 91 : Int) ≠ 10000 - (10000 / 100 * 91 + 1000) ∧
    timeDelay 91 = 65436 := by decide

/-- C4 (amended): for 0 < p < 100, `SetWaitingPulse` computes the delay
10000 − ((10000/100)·p + 1000) in 16-bit unsigned arithmetic — equal to
the integer value for p ≤ 90 and wrapped modulo 2^16 for p ≥ 91, where
prescaler 256 is then always selected — and programs the timer through
`SetTimer` with the prescaler chosen by the documented thresholds
(< 425 µs → 8, < 3400 µs → 64, otherwise 256); for p = 50 the delay is
4000 µs (not 3900 µs) and prescaler 256 is selected. -/
theorem C4_delay_and_divisor : ∀ (p : Nat) (s : MCU), 1 ≤ p → p ≤ 99 →
    (p ≤ 90 → timeDelay p = 10000 - (10000 / 100 * p + 1000)) ∧
    (91 ≤ p → timeDelay p + (10000 / 100 * p + 1000) = 2 ^ 16 + 10000 ∧
      selectedPrescaler p = 256) ∧
    SetWaitingPulse p s =
      SetTimer (selectedPrescaler p)
        (CalculateRegisterValue (selectedPrescaler p) (timeDelay p)) s ∧
    (timeDelay p < 425 → selectedPrescaler p = 8) ∧
    (425 ≤ timeDelay p → timeDelay p < 3400 → selectedPrescaler p = 64) ∧
    (3400 ≤ timeDelay p → selectedPrescaler p = 256) ∧
    timeDelay 50 = 4000 ∧ selectedPrescaler 50 = 256 := by
  intro p s h1 h99
  obtain ⟨ha, hb⟩ := timeDelay_cases p h99 h1
  obtain ⟨hc, hd, he⟩ := selectedPrescaler_thresholds p h99 h1
  exact ⟨ha, hb, setWaitingPulse_eq p s (by omega) (by omega), hc, hd, he,
    by decide, by decide⟩

/-- C4 witness: the amended theorem applied at percentage 50 and a
concrete machine state. -/
theorem C4_delay_and_divisor_witness :
    (50 ≤ 90 → timeDelay 50 = 10000 - (10000 / 100 * 50 + 1000)) ∧
    (91 ≤ 50 → timeDelay 50 + (10000 / 100 * 50 + 1000) = 2 ^ 16 + 10000 ∧
      selectedPrescaler 50 = 256) ∧
    SetWaitingPulse 50 mcu0 =
      SetTimer (selectedPrescaler 50)
        (CalculateRegisterValue (selectedPrescaler 50) (timeDelay 50)) mcu0 ∧
    (timeDelay 50 < 425 → selectedPrescaler 50 = 8) ∧
    (425 ≤ timeDelay 50 → timeDelay 50 < 3400 → selectedPrescaler 50 = 64) ∧
    (3400 ≤ timeDelay 50 → selectedPrescaler 50 = 256) ∧
    timeDelay 50 = 4000 ∧ selectedPrescaler 50 = 256 :=
  C4_delay_and_divisor 50 mcu0 (by decide) (by decide)

/-- C5: whenever the mathematical quotient 48·t/10/prescaler lies in
1..256 (so that neither the trailing decrement nor the `char` cast can
alter it — the range the spec prescribes for the compare count),
`CalculateRegisterValue` equals floor(4800000 Hz · t µs · 10⁻⁶ s/µs /
prescaler) − 1; in particular it maps (8, 250) to 149, the fixed
trigger-pulse constant, and (64, 1000) to 74, the zero-cross
compensation constant. -/
theorem C5_register_formula :
    (∀ prescaler time : Nat, 0 < prescaler →
      1 ≤ 48 * time / 10 / prescaler → 48 * time / 10 / prescaler ≤ 256 →
      CalculateRegisterValue prescaler time =
        4800000 * time / 1000000 / prescaler - 1) ∧
    CalculateRegisterValue 8 250 = 149 ∧
    CalculateRegisterValue 64 1000 = 74 := by
  refine ⟨?_, by decide, by decide⟩
  intro prescaler time hp h1 h2
  have hdiv : 4800000 * time / 1000000 = 48 * time / 10 := by
    have h48 : 4800000 * time = 48 * time * 100000 := by ring
    rw [h48, show (1000000 : Nat) = 10 * 100000 from rfl,
      Nat.mul_div_mul_right _ _ (by norm_num : (0 : Nat) < 100000)]
  rw [hdiv]
  unfold CalculateRegisterValue calcRegValA ULONG_MOD
  set q := 48 * time / 10 / prescaler with hq
  have h32 : (2 : Nat) ^ 32 = 4294967296 := by norm_num
  rw [h32]
  omega

/-- C5 witness: the formula applied at prescaler 8 and duration 250 µs. -/
theorem C5_register_formula_witness :
    CalculateRegisterValue 8 250 = 4800000 * 250 / 1000000 / 8 - 1 :=
  C5_register_formula.1 8 250 (by decide) (by decide) (by decide)

/-- C6: `SetWaitingPulse 100` bypasses the general formula and programs
the timer with prescaler 64 (clock-select bits 3) and the precomputed
compare count 74, interrupt enabled; `SetWaitingPulse 0` disables the
compare interrupt and stops the timer clock (clock-select bits 0). -/
theorem C6_special_percentages : ∀ s : MCU,
    (SetWaitingPulse 100 s).cs = csBits 64 ∧
    csBits 64 = 3 ∧
    (SetWaitingPulse 100 s).ocr0a =
      (s.tcnt0 + ZERO_CROSS_DELAY_OCR0A_PRESC_64) % 256 ∧
    ZERO_CROSS_DELAY_OCR0A_PRESC_64 = 74 ∧
    (SetWaitingPulse 100 s).ocie0a = true ∧
    (SetWaitingPulse 0 s).ocie0a = false ∧
    (SetWaitingPulse 0 s).cs = 0 := by
  intro s
  refine ⟨rfl, rfl, ?_, rfl, rfl, rfl, rfl⟩
  show (s.tcnt0 + 74 % 256) % 256 = (s.tcnt0 + 74) % 256
  norm_num

/-- C7: for every raw ADC input between the clamp thresholds (at least
220 and at most 941), `CalculateADCValue` returns (raw − 205)·100/818
with truncating integer division; the midpoint input 614 maps to 50. -/
theorem C7_linear_mapping : ∀ raw : Nat,
    LOWER_THRESHOLD_VALUE ≤ raw → raw ≤ UPPER_THRESHOLD_VALUE →
    CalculateADCValue raw = (raw - 205) * 100 / 818 ∧
    CalculateADCValue 614 = 50 := by
  intro raw hlo hhi
  refine ⟨calcADC_mid ?_ ?_, by decide⟩
  · simpa [LOWER_THRESHOLD_VALUE] using hlo
  · simpa [UPPER_THRESHOLD_VALUE] using hhi

/-- C7 witness: the theorem applied at the midpoint input 614. -/
theorem C7_linear_mapping_witness :
    CalculateADCValue 614 = (614 - 205) * 100 / 818 ∧
    CalculateADCValue 614 = 50 :=
  C7_linear_mapping 614 (by decide) (by decide)

/-- C8: `CalculateADCValue` is monotonic non-decreasing over the full
10-bit input domain 0..1023, and it is deterministic: equal raw inputs
give equal percentages. -/
theorem C8_monotone_deterministic :
    (∀ a b : Nat, a ≤ b → b ≤ 1023 →
      CalculateADCValue a ≤ CalculateADCValue b) ∧
    (∀ a b : Nat, a = b → CalculateADCValue a = CalculateADCValue b) := by
  constructor
  · intro a b hab hb1023
    rcases lt_or_le 941 b with hbu | hbu
    · rw [calcADC_high hbu]
      exact calcADC_le_100 a
    · have hau : a ≤ 941 := le_trans hab hbu
      rcases lt_or_le a 220 with hal | hal
      · rw [calcADC_low hal]
        exact Nat.zero_le _
      · have hbl : (220 : Nat) ≤ b := le_trans hal hab
        rw [calcADC_mid hal hau, calcADC_mid hbl hbu]
        exact Nat.div_le_div_right (by omega)
  · intro a b h
    rw [h]

/-- C8 witness: monotonicity applied at the domain endpoints 0 and 1023,
and determinism at input 614. -/
theorem C8_monotone_deterministic_witness :
    CalculateADCValue 0 ≤ CalculateADCValue 1023 ∧
    CalculateADCValue 614 = CalculateADCValue 614 :=
  ⟨C8_monotone_deterministic.1 0 1023 (by decide) (by decide),
    C8_monotone_deterministic.2 614 614 rfl⟩

/-- C9: the ADC conversion-complete handler assembles the low byte (read
first) and the high byte of the conversion result into `ADCResult` and
changes nothing else: controller state, output bit, timer clock-select,
interrupt enable, compare register and counter are all untouched.  The
bounds are those of the hardware: ADCL is an 8-bit register and ADCH of
a 10-bit conversion is at most 3. -/
theorem C9_adc_isr_frame : ∀ (low high : Nat) (s : MCU),
    low ≤ 255 → high ≤ 3 →
    (ISR_ADC low high s).adcResult = high * 2 ^ 8 + low ∧
    (ISR_ADC low high s).state = s.state ∧
    (ISR_ADC low high s).portb0 = s.portb0 ∧
    (ISR_ADC low high s).cs = s.cs ∧
    (ISR_ADC low high s).ocie0a = s.ocie0a ∧
    (ISR_ADC low high s).ocr0a = s.ocr0a ∧
    (ISR_ADC low high s).tcnt0 = s.tcnt0 := by
  intro low high s hl hh
  refine ⟨?_, rfl, rfl, rfl, rfl, rfl, rfl⟩
  show ((high % 256) * 2 ^ 8 + low % 256) % UINT_MOD = high * 2 ^ 8 + low
  unfold UINT_MOD
  have h8 : (2 : Nat) ^ 8 = 256 := by norm_num
  have h16 : (2 : Nat) ^ 16 = 65536 := by norm_num
  rw [h8, h16]
  omega

/-- C9 witness: the handler applied to concrete bytes and machine state. -/
theorem C9_adc_isr_frame_witness :
    (ISR_ADC 5 2 mcu0).adcResult = 2 * 2 ^ 8 + 5 ∧
    (ISR_ADC 5 2 mcu0).state = mcu0.state ∧
    (ISR_ADC 5 2 mcu0).portb0 = mcu0.portb0 ∧
    (ISR_ADC 5 2 mcu0).cs = mcu0.cs ∧
    (ISR_ADC 5 2 mcu0).ocie0a = mcu0.ocie0a ∧
    (ISR_ADC 5 2 mcu0).ocr0a = mcu0.ocr0a ∧
    (ISR_ADC 5 2 mcu0).tcnt0 = mcu0.tcnt0 :=
  C9_adc_isr_frame 5 2 mcu0 (by decide) (by decide)

/-- C10: over the full 10-bit domain the percentage is either at most 89
or exactly 100 — the band 90..99 is unreachable — and the largest
unclamped input 941 maps to 89. -/
theorem C10_percentage_gap :
    (∀ raw : Nat, raw ≤ 1023 →
      CalculateADCValue raw ≤ 89 ∨ CalculateADCValue raw = 100) ∧
    CalculateADCValue 941 = 89 :=
  ⟨by decide, by decide⟩

/-- C10 witness: the gap property applied at the boundary input 941. -/
theorem C10_percentage_gap_witness :
    CalculateADCValue 941 ≤ 89 ∨ CalculateADCValue 941 = 100 :=
  C10_percentage_gap.1 941 (by decide)
